import Mathlib

/-!
Shallow embedding of the CDS UI pipeline service
(src/ui/src/app/service/pipeline/pipeline.service.ts).

Each public method of the Angular PipelineService is modelled as a function
from its arguments to a Call: the outbound request descriptor (HTTP method,
url, query parameters, headers, body, response type) together with the
mapping the service applies to the parsed response body (the identity
unless an rxjs map operator is piped, as in deletePipeline).

JavaScript runtime behaviour relevant to the service is modelled
explicitly: string interpolation of an undefined number yields the text
undefined (jsNumToString), and the or-else operator on strings treats both
undefined and the empty string as falsy (jsOrString).
-/

namespace PipelineSvc

/-- HTTP verbs used by the service. -/
inductive Method
  | GET | POST | PUT | DELETE
  deriving DecidableEq, Repr

/-- Response type requested from the Angular HttpClient: json (the default,
the body is parsed) or text (the body is delivered verbatim). -/
inductive RespType
  | json | text
  deriving DecidableEq, Repr

/-- Runtime JavaScript values, as far as response mapping needs them. -/
inductive JsValue
  | undefined
  | null
  | bool (b : Bool)
  | num (n : Int)
  | str (s : String)
  | arr (elems : List JsValue)
  | obj (fields : List (String × JsValue))

/-- Pipeline domain object; opaque to this layer apart from its name. -/
structure Pipeline where
  name : String
  deriving DecidableEq, Repr

/-- Stage domain object. A TypeScript class field of type number is
undefined until assigned, so the id is modelled as an optional integer. -/
structure Stage where
  id : Option Int
  deriving DecidableEq, Repr

/-- Job domain object; the service reads only pipeline_action_id, which may
be undefined at runtime. -/
structure Job where
  pipeline_action_id : Option Int
  deriving DecidableEq, Repr

/-- Parameter domain object; previousName is an optional field, set when a
rename is requested. -/
structure Parameter where
  name : String
  type : String
  value : String
  previousName : Option String
  deriving DecidableEq, Repr

/-- JavaScript string rendering of a possibly undefined number, as it is
concatenated into a url: an undefined value renders as the text undefined. -/
def jsNumToString : Option Int → String
  | Option.none => "undefined"
  | Option.some n => toString n

/-- JavaScript or-else on an optional string, as in the expression
previousName or-else name: undefined and the empty string are falsy. -/
def jsOrString : Option String → String → String
  | Option.none, b => b
  | Option.some a, b => if a = "" then b else a

/-- Modelled from the spec: Parameter.format is declared in
src/ui/src/app/model/parameter.model.ts, which is not among the provided
sources. Per the spec, the body of update parameter is the normalized
parameter representation whose identity field is the (new) name: the
normalized form keeps name, type and value and drops the transient rename
field. -/
def Parameter.format (p : Parameter) : Parameter :=
  { name := p.name, type := p.type, value := p.value
  , previousName := Option.none }

/-- Request bodies sent by the service. -/
inductive ReqBody
  | none
  | emptyObject
  | pipeline (p : Pipeline)
  | stage (s : Stage)
  | job (j : Job)
  | parameter (p : Parameter)
  | text (code : String)
  deriving DecidableEq, Repr

/-- Outbound request descriptor. -/
structure Request where
  method : Method
  url : String
  params : List (String × String)
  headers : List (String × String)
  body : ReqBody
  responseType : RespType
  deriving DecidableEq, Repr

/-- Angular HttpParams: an immutable ordered multimap; append returns a
copy with the pair added at the end. -/
abbrev HttpParams := List (String × String)

def HttpParams.empty : HttpParams := []

def HttpParams.append (ps : HttpParams) (k v : String) : HttpParams :=
  ps ++ [(k, v)]

/-- Angular HttpHeaders, modelled the same way as HttpParams. -/
abbrev HttpHeaders := List (String × String)

def HttpHeaders.empty : HttpHeaders := []

def HttpHeaders.append (hs : HttpHeaders) (k v : String) : HttpHeaders :=
  hs ++ [(k, v)]

/-- A service method call: the request it builds together with the mapping
applied to the parsed response body before it reaches the caller. -/
structure Call where
  req : Request
  respMap : JsValue → JsValue

/-- getPipelines: GET on the pipeline collection of a project. -/
def getPipelines (key : String) : Call :=
  { req := { method := Method.GET
           , url := "/project/" ++ key ++ "/pipeline"
           , params := [], headers := [], body := ReqBody.none
           , responseType := RespType.json }
  , respMap := fun v => v }

/-- getPipeline: GET on a named pipeline, always appending the three
denormalization flags. -/
def getPipeline (key pipName : String) : Call :=
  let params := ((HttpParams.empty.append "withApplications" "true").append
    "withWorkflows" "true").append "withEnvironments" "true"
  { req := { method := Method.GET
           , url := "/project/" ++ key ++ "/pipeline/" ++ pipName
           , params := params, headers := [], body := ReqBody.none
           , responseType := RespType.json }
  , respMap := fun v => v }

/-- updatePipeline: PUT on the old name, body carries the new state. -/
def updatePipeline (key oldName : String) (pipeline : Pipeline) : Call :=
  { req := { method := Method.PUT
           , url := "/project/" ++ key ++ "/pipeline/" ++ oldName
           , params := [], headers := [], body := ReqBody.pipeline pipeline
           , responseType := RespType.json }
  , respMap := fun v => v }

/-- importPipeline: yaml content type and format parameter; POST to the
collection address when no name is given, PUT to the named address
otherwise. The force argument is declared but never read. -/
def importPipeline (key pipName pipelineCode : String)
    (force : Option Bool) : Call :=
  let headers := HttpHeaders.empty.append "Content-Type" "application/x-yaml"
  let params := HttpParams.empty.append "format" "yaml"
  if pipName = "" then
    { req := { method := Method.POST
             , url := "/project/" ++ key ++ "/import/pipeline"
             , params := params, headers := headers
             , body := ReqBody.text pipelineCode
             , responseType := RespType.json }
    , respMap := fun v => v }
  else
    { req := { method := Method.PUT
             , url := "/project/" ++ key ++ "/import/pipeline/" ++ pipName
             , params := params, headers := headers
             , body := ReqBody.text pipelineCode
             , responseType := RespType.json }
    , respMap := fun v => v }

/-- rollbackPipeline: POST with an empty object body; the audit id is part
of the address. -/
def rollbackPipeline (key pipName : String) (auditId : Int) : Call :=
  { req := { method := Method.POST
           , url := "/project/" ++ key ++ "/pipeline/" ++ pipName ++
               "/rollback/" ++ toString auditId
           , params := [], headers := [], body := ReqBody.emptyObject
           , responseType := RespType.json }
  , respMap := fun v => v }

/-- deletePipeline: DELETE, with the response piped through a map that
discards the body and returns true. -/
def deletePipeline (key pipName : String) : Call :=
  { req := { method := Method.DELETE
           , url := "/project/" ++ key ++ "/pipeline/" ++ pipName
           , params := [], headers := [], body := ReqBody.none
           , responseType := RespType.json }
  , respMap := fun _ => JsValue.bool true }

/-- createPipeline: POST on the pipeline collection of a project. -/
def createPipeline (key : String) (pipeline : Pipeline) : Call :=
  { req := { method := Method.POST
           , url := "/project/" ++ key ++ "/pipeline"
           , params := [], headers := [], body := ReqBody.pipeline pipeline
           , responseType := RespType.json }
  , respMap := fun v => v }

/-- getApplications: GET the applications using a pipeline. -/
def getApplications (key pipName : String) : Call :=
  { req := { method := Method.GET
           , url := "/project/" ++ key ++ "/pipeline/" ++ pipName ++
               "/application"
           , params := [], headers := [], body := ReqBody.none
           , responseType := RespType.json }
  , respMap := fun v => v }

/-- insertStage: POST a stage under a pipeline. -/
def insertStage (key pipName : String) (stage : Stage) : Call :=
  { req := { method := Method.POST
           , url := "/project/" ++ key ++ "/pipeline/" ++ pipName ++ "/stage"
           , params := [], headers := [], body := ReqBody.stage stage
           , responseType := RespType.json }
  , respMap := fun v => v }

/-- updateStage: PUT on the stage id taken from the stage object. -/
def updateStage (key pipName : String) (stage : Stage) : Call :=
  { req := { method := Method.PUT
           , url := "/project/" ++ key ++ "/pipeline/" ++ pipName ++
               "/stage/" ++ jsNumToString stage.id
           , params := [], headers := [], body := ReqBody.stage stage
           , responseType := RespType.json }
  , respMap := fun v => v }

/-- deleteStage: DELETE on the stage id taken from the stage object. -/
def deleteStage (key pipName : String) (stage : Stage) : Call :=
  { req := { method := Method.DELETE
           , url := "/project/" ++ key ++ "/pipeline/" ++ pipName ++
               "/stage/" ++ jsNumToString stage.id
           , params := [], headers := [], body := ReqBody.none
           , responseType := RespType.json }
  , respMap := fun v => v }

/-- addJob: POST a job under a stage. -/
def addJob (key pipName : String) (stageID : Int) (job : Job) : Call :=
  { req := { method := Method.POST
           , url := "/project/" ++ key ++ "/pipeline/" ++ pipName ++
               "/stage/" ++ toString stageID ++ "/job"
           , params := [], headers := [], body := ReqBody.job job
           , responseType := RespType.json }
  , respMap := fun v => v }

/-- updateJob: PUT on the job id taken from the job object. -/
def updateJob (key pipName : String) (stageID : Int) (job : Job) : Call :=
  { req := { method := Method.PUT
           , url := "/project/" ++ key ++ "/pipeline/" ++ pipName ++
               "/stage/" ++ toString stageID ++ "/job/" ++
               jsNumToString job.pipeline_action_id
           , params := [], headers := [], body := ReqBody.job job
           , responseType := RespType.json }
  , respMap := fun v => v }

/-- removeJob: DELETE on the job id taken from the job object. -/
def removeJob (key pipName : String) (stageID : Int) (job : Job) : Call :=
  { req := { method := Method.DELETE
           , url := "/project/" ++ key ++ "/pipeline/" ++ pipName ++
               "/stage/" ++ toString stageID ++ "/job/" ++
               jsNumToString job.pipeline_action_id
           , params := [], headers := [], body := ReqBody.none
           , responseType := RespType.json }
  , respMap := fun v => v }

/-- addParameter: POST on the parameter name. -/
def addParameter (key pipName : String) (param : Parameter) : Call :=
  { req := { method := Method.POST
           , url := "/project/" ++ key ++ "/pipeline/" ++ pipName ++
               "/parameter/" ++ param.name
           , params := [], headers := [], body := ReqBody.parameter param
           , responseType := RespType.json }
  , respMap := fun v => v }

/-- updateParameter: PUT on the previous name falling back to the current
name, body is the formatted parameter. -/
def updateParameter (key pipName : String) (param : Parameter) : Call :=
  { req := { method := Method.PUT
           , url := "/project/" ++ key ++ "/pipeline/" ++ pipName ++
               "/parameter/" ++ jsOrString param.previousName param.name
           , params := [], headers := []
           , body := ReqBody.parameter (Parameter.format param)
           , responseType := RespType.json }
  , respMap := fun v => v }

/-- removeParameter: DELETE on the parameter name. -/
def removeParameter (key pipName : String) (param : Parameter) : Call :=
  { req := { method := Method.DELETE
           , url := "/project/" ++ key ++ "/pipeline/" ++ pipName ++
               "/parameter/" ++ param.name
           , params := [], headers := [], body := ReqBody.none
           , responseType := RespType.json }
  , respMap := fun v => v }

/-- moveStage: POST on the dedicated move address. -/
def moveStage (key pipName : String) (stage : Stage) : Call :=
  { req := { method := Method.POST
           , url := "/project/" ++ key ++ "/pipeline/" ++ pipName ++
               "/stage/move"
           , params := [], headers := [], body := ReqBody.stage stage
           , responseType := RespType.json }
  , respMap := fun v => v }

/-- getPipelineExport: GET with format and permission parameters, response
requested as literal text. -/
def getPipelineExport (key pipName : String) : Call :=
  let params := (HttpParams.empty.append "format" "yaml").append
    "withPermissions" "true"
  { req := { method := Method.GET
           , url := "/project/" ++ key ++ "/export/pipeline/" ++ pipName
           , params := params, headers := [], body := ReqBody.none
           , responseType := RespType.text }
  , respMap := fun v => v }

/-- previewPipelineImport: POST the textual source with yaml content type
and format parameter. -/
def previewPipelineImport (key pipImportCode : String) : Call :=
  let params := HttpParams.empty.append "format" "yaml"
  let headers := HttpHeaders.empty.append "Content-Type" "application/x-yaml"
  { req := { method := Method.POST
           , url := "/project/" ++ key ++ "/preview/pipeline"
           , params := params, headers := headers
           , body := ReqBody.text pipImportCode
           , responseType := RespType.json }
  , respMap := fun v => v }

/-- Address of a pipeline, as the service concatenates it. -/
def pipelineAddr (key pipName : String) : String :=
  "/project/" ++ key ++ "/pipeline/" ++ pipName

/-- Address of a stage: the pipeline address extended with the stage id. -/
def stageAddr (key pipName : String) (stageID : Int) : String :=
  pipelineAddr key pipName ++ "/stage/" ++ toString stageID

/-- One constructor per public method of the service, with its arguments;
used to quantify over every operation the service exposes. -/
inductive OpCall
  | getPipelines (key : String)
  | getPipeline (key pipName : String)
  | updatePipeline (key oldName : String) (pipeline : Pipeline)
  | importPipeline (key pipName pipelineCode : String) (force : Option Bool)
  | rollbackPipeline (key pipName : String) (auditId : Int)
  | deletePipeline (key pipName : String)
  | createPipeline (key : String) (pipeline : Pipeline)
  | getApplications (key pipName : String)
  | insertStage (key pipName : String) (stage : Stage)
  | updateStage (key pipName : String) (stage : Stage)
  | deleteStage (key pipName : String) (stage : Stage)
  | addJob (key pipName : String) (stageID : Int) (job : Job)
  | updateJob (key pipName : String) (stageID : Int) (job : Job)
  | removeJob (key pipName : String) (stageID : Int) (job : Job)
  | addParameter (key pipName : String) (param : Parameter)
  | updateParameter (key pipName : String) (param : Parameter)
  | removeParameter (key pipName : String) (param : Parameter)
  | moveStage (key pipName : String) (stage : Stage)
  | getPipelineExport (key pipName : String)
  | previewPipelineImport (key pipImportCode : String)

/-- Dispatch an operation to the service method it names. -/
def dispatch : OpCall → Call
  | OpCall.getPipelines key => getPipelines key
  | OpCall.getPipeline key pipName => getPipeline key pipName
  | OpCall.updatePipeline key oldName p => updatePipeline key oldName p
  | OpCall.importPipeline key pipName code force =>
      importPipeline key pipName code force
  | OpCall.rollbackPipeline key pipName auditId =>
      rollbackPipeline key pipName auditId
  | OpCall.deletePipeline key pipName => deletePipeline key pipName
  | OpCall.createPipeline key p => createPipeline key p
  | OpCall.getApplications key pipName => getApplications key pipName
  | OpCall.insertStage key pipName s => insertStage key pipName s
  | OpCall.updateStage key pipName s => updateStage key pipName s
  | OpCall.deleteStage key pipName s => deleteStage key pipName s
  | OpCall.addJob key pipName stageID j => addJob key pipName stageID j
  | OpCall.updateJob key pipName stageID j => updateJob key pipName stageID j
  | OpCall.removeJob key pipName stageID j => removeJob key pipName stageID j
  | OpCall.addParameter key pipName p => addParameter key pipName p
  | OpCall.updateParameter key pipName p => updateParameter key pipName p
  | OpCall.removeParameter key pipName p => removeParameter key pipName p
  | OpCall.moveStage key pipName s => moveStage key pipName s
  | OpCall.getPipelineExport key pipName => getPipelineExport key pipName
  | OpCall.previewPipelineImport key code => previewPipelineImport key code

/-- The operations whose payload is the textual pipeline definition. -/
def OpCall.isTextualPayload : OpCall → Bool
  | OpCall.importPipeline _ _ _ _ => true
  | OpCall.previewPipelineImport _ _ => true
  | _ => false

/-- The export operation. -/
def OpCall.isExport : OpCall → Bool
  | OpCall.getPipelineExport _ _ => true
  | _ => false

/-- Whether a request carries the yaml content type header. -/
def Request.hasYamlHeader (r : Request) : Bool :=
  r.headers.contains ("Content-Type", "application/x-yaml")

/-- Whether a request carries the yaml format query parameter. -/
def Request.hasYamlFormatParam (r : Request) : Bool :=
  r.params.contains ("format", "yaml")

/-- Result delivered by the HttpClient for a raw body string: with response
type text the string is returned verbatim; with the default json response
type the body is run through the JSON parser. -/
inductive HttpResult
  | text (raw : String)
  | parsed (v : JsValue)

/-- Delivery of a raw response body according to the requested response
type; the JSON parser is a parameter so that theorems can show it is never
consulted for text responses. -/
def deliver (rt : RespType) (raw : String)
    (parse : String → JsValue) : HttpResult :=
  match rt with
  | RespType.text => HttpResult.text raw
  | RespType.json => HttpResult.parsed (parse raw)

/-- Claim C1: importPipeline with an empty target name issues a POST to the
collection address /project/key/import/pipeline, and with a non-empty name
a PUT to the named address /project/key/import/pipeline/name; the verb and
the address switch together on the same condition, never independently. -/
theorem claim_C1 (key pipName pipelineCode : String) (force : Option Bool) :
    (pipName = "" →
      (importPipeline key pipName pipelineCode force).req.method =
        Method.POST ∧
      (importPipeline key pipName pipelineCode force).req.url =
        "/project/" ++ key ++ "/import/pipeline") ∧
    (pipName ≠ "" →
      (importPipeline key pipName pipelineCode force).req.method =
        Method.PUT ∧
      (importPipeline key pipName pipelineCode force).req.url =
        "/project/" ++ key ++ "/import/pipeline/" ++ pipName) := by
  constructor
  · intro h
    simp [importPipeline, h]
  · intro h
    simp [importPipeline, h]

/-- Witness for claim C1 at the concrete inputs of the spec scenario. -/
theorem claim_C1_witness :
    ((importPipeline "PRJ" "" "code" Option.none).req.method = Method.POST ∧
      (importPipeline "PRJ" "" "code" Option.none).req.url =
        "/project/PRJ/import/pipeline") ∧
    ((importPipeline "PRJ" "P" "code" Option.none).req.method = Method.PUT ∧
      (importPipeline "PRJ" "P" "code" Option.none).req.url =
        "/project/PRJ/import/pipeline/P") := by
  refine ⟨?_, ?_⟩
  · have h := claim_C1 "PRJ" "" "code" Option.none
    exact ⟨(h.1 rfl).1, (h.1 rfl).2⟩
  · have h := claim_C1 "PRJ" "P" "code" Option.none
    exact ⟨(h.2 (by decide)).1, (h.2 (by decide)).2⟩

/-- Claim C2: updateParameter addresses the parameter under its previous
name when one is set (a rename), falling back to the current name when it
is unset, and the body is the normalized parameter representation whose
identity field is the new name. -/
theorem claim_C2 (key pipName : String) (param : Parameter) :
    (updateParameter key pipName param).req.body =
      ReqBody.parameter (Parameter.format param) ∧
    (Parameter.format param).name = param.name ∧
    (param.previousName = Option.none →
      (updateParameter key pipName param).req.url =
        pipelineAddr key pipName ++ "/parameter/" ++ param.name) ∧
    (∀ s, param.previousName = Option.some s → s ≠ "" →
      (updateParameter key pipName param).req.url =
        pipelineAddr key pipName ++ "/parameter/" ++ s) := by
  refine ⟨rfl, rfl, ?_, ?_⟩
  · intro h
    simp [updateParameter, jsOrString, h, pipelineAddr]
  · intro s h hs
    simp [updateParameter, jsOrString, h, hs, pipelineAddr]

/-- Witness for claim C2 at the concrete inputs of the spec scenario. -/
theorem claim_C2_witness :
    (updateParameter "PRJ" "P"
      { name := "new", type := "string", value := "v"
      , previousName := Option.some "old" }).req.url =
        "/project/PRJ/pipeline/P/parameter/old" ∧
    (updateParameter "PRJ" "P"
      { name := "x", type := "string", value := "v"
      , previousName := Option.none }).req.url =
        "/project/PRJ/pipeline/P/parameter/x" := by
  constructor
  · exact (claim_C2 "PRJ" "P"
      { name := "new", type := "string", value := "v"
      , previousName := Option.some "old" }).2.2.2 "old" rfl (by decide)
  · exact (claim_C2 "PRJ" "P"
      { name := "x", type := "string", value := "v"
      , previousName := Option.none }).2.2.1 rfl

/-- Counterexample to claim C3: updateJob called with an absent job
identifier is not rejected; a full request is built and the text undefined
is silently embedded in the address. -/
theorem claim_C3_counterexample :
    (updateJob "PRJ" "P" 1 { pipeline_action_id := Option.none }).req =
      { method := Method.PUT
      , url := "/project/PRJ/pipeline/P/stage/1/job/undefined"
      , params := [], headers := []
      , body := ReqBody.job { pipeline_action_id := Option.none }
      , responseType := RespType.json } := rfl

/-- Claim C3 as amended: the service performs no validation of address
components; every operation builds its request unconditionally, embedding
whatever the components evaluate to (an absent numeric identifier renders
as the text undefined, an empty name yields an empty path segment), and no
invalid-argument failure exists in this layer. -/
theorem claim_C3_amended (key pipName : String) (stageID : Int)
    (job : Job) (param : Parameter) :
    (updateJob key pipName stageID job).req.url =
      stageAddr key pipName stageID ++ "/job/" ++
        jsNumToString job.pipeline_action_id ∧
    (updateJob key pipName stageID job).req.method = Method.PUT ∧
    (updateParameter key pipName param).req.url =
      pipelineAddr key pipName ++ "/parameter/" ++
        jsOrString param.previousName param.name ∧
    (updateParameter key pipName param).req.method = Method.PUT :=
  ⟨rfl, rfl, rfl, rfl⟩

/-- The headers of an import request do not depend on the branch taken. -/
theorem importPipeline_req_headers (key pipName code : String)
    (force : Option Bool) :
    (importPipeline key pipName code force).req.headers =
      [("Content-Type", "application/x-yaml")] := by
  unfold importPipeline
  split <;> rfl

/-- The query parameters of an import request do not depend on the branch
taken. -/
theorem importPipeline_req_params (key pipName code : String)
    (force : Option Bool) :
    (importPipeline key pipName code force).req.params =
      [("format", "yaml")] := by
  unfold importPipeline
  split <;> rfl

/-- Claim C4: exactly the operations whose payload is the textual pipeline
definition (importPipeline and previewPipelineImport) carry the yaml
content type header, and the yaml format query parameter is carried by
exactly those two operations and the export operation. -/
theorem claim_C4 (c : OpCall) :
    (dispatch c).req.hasYamlHeader = c.isTextualPayload ∧
    (dispatch c).req.hasYamlFormatParam =
      (c.isTextualPayload || c.isExport) := by
  cases c with
  | importPipeline key pipName code force =>
      refine ⟨?_, ?_⟩
      · show (importPipeline key pipName code force).req.hasYamlHeader = true
        simp only [Request.hasYamlHeader, importPipeline_req_headers]
        rfl
      · show (importPipeline key pipName code force).req.hasYamlFormatParam
          = true
        simp only [Request.hasYamlFormatParam, importPipeline_req_params]
        rfl
  | getPipelines key => exact ⟨rfl, rfl⟩
  | getPipeline key pipName => exact ⟨rfl, rfl⟩
  | updatePipeline key oldName p => exact ⟨rfl, rfl⟩
  | rollbackPipeline key pipName auditId => exact ⟨rfl, rfl⟩
  | deletePipeline key pipName => exact ⟨rfl, rfl⟩
  | createPipeline key p => exact ⟨rfl, rfl⟩
  | getApplications key pipName => exact ⟨rfl, rfl⟩
  | insertStage key pipName s => exact ⟨rfl, rfl⟩
  | updateStage key pipName s => exact ⟨rfl, rfl⟩
  | deleteStage key pipName s => exact ⟨rfl, rfl⟩
  | addJob key pipName stageID j => exact ⟨rfl, rfl⟩
  | updateJob key pipName stageID j => exact ⟨rfl, rfl⟩
  | removeJob key pipName stageID j => exact ⟨rfl, rfl⟩
  | addParameter key pipName p => exact ⟨rfl, rfl⟩
  | updateParameter key pipName p => exact ⟨rfl, rfl⟩
  | removeParameter key pipName p => exact ⟨rfl, rfl⟩
  | moveStage key pipName s => exact ⟨rfl, rfl⟩
  | getPipelineExport key pipName => exact ⟨rfl, rfl⟩
  | previewPipelineImport key code => exact ⟨rfl, rfl⟩

/-- Claim C5: deletePipeline collapses every success response body to the
boolean true, while the other delete operations (deleteStage, removeJob,
removeParameter) return the response body, the mutated parent pipeline,
unchanged. -/
theorem claim_C5 (key pipName : String) (stage : Stage) (stageID : Int)
    (job : Job) (param : Parameter) (v : JsValue) :
    (deletePipeline key pipName).respMap v = JsValue.bool true ∧
    (deleteStage key pipName stage).respMap v = v ∧
    (removeJob key pipName stageID job).respMap v = v ∧
    (removeParameter key pipName param).respMap v = v :=
  ⟨rfl, rfl, rfl, rfl⟩

/-- Claim C6: the export request carries the query parameters format=yaml
and withPermissions=true, and its response type is text, so the delivered
result is the literal body string no matter what the JSON parser would
make of it. -/
theorem claim_C6 (key pipName : String) :
    (getPipelineExport key pipName).req.params =
      [("format", "yaml"), ("withPermissions", "true")] ∧
    (getPipelineExport key pipName).req.responseType = RespType.text ∧
    (∀ (raw : String) (parse : String → JsValue),
      deliver (getPipelineExport key pipName).req.responseType raw parse =
        HttpResult.text raw) :=
  ⟨rfl, rfl, fun _ _ => rfl⟩

/-- Claim C7: rollbackPipeline issues a POST whose body is the empty
object and whose address embeds the audit id; the audit id appears only in
the address, never in the body. -/
theorem claim_C7 (key pipName : String) (auditId : Int) :
    (rollbackPipeline key pipName auditId).req.method = Method.POST ∧
    (rollbackPipeline key pipName auditId).req.url =
      pipelineAddr key pipName ++ "/rollback/" ++ toString auditId ∧
    (rollbackPipeline key pipName auditId).req.body =
      ReqBody.emptyObject :=
  ⟨rfl, rfl, rfl⟩

/-- Claim C8: the get-pipeline request always carries the three query
parameters withApplications=true, withWorkflows=true and
withEnvironments=true, for every project key and pipeline name. -/
theorem claim_C8 (key pipName : String) :
    (getPipeline key pipName).req.params =
      [("withApplications", "true"), ("withWorkflows", "true"),
        ("withEnvironments", "true")] ∧
    (getPipeline key pipName).req.method = Method.GET :=
  ⟨rfl, rfl⟩

/-- Claim C9: the address of a nested entity is its parent address
extended with its local identifier; in particular updating a job with id 3
in pipeline P of project PRJ resolves to
/project/PRJ/pipeline/P/stage/stageID/job/3. -/
theorem claim_C9 (key pipName : String) (stageID : Int) (job : Job) :
    (updateJob key pipName stageID job).req.url =
      stageAddr key pipName stageID ++ "/job/" ++
        jsNumToString job.pipeline_action_id ∧
    (addJob key pipName stageID job).req.url =
      stageAddr key pipName stageID ++ "/job" ∧
    stageAddr key pipName stageID =
      pipelineAddr key pipName ++ "/stage/" ++ toString stageID ∧
    (updateJob "PRJ" "P" stageID
      { pipeline_action_id := Option.some 3 }).req.url =
      "/project/PRJ/pipeline/P/stage/" ++ toString stageID ++
        "/job/" ++ "3" :=
  ⟨rfl, rfl, rfl, rfl⟩

/-- Claim C10: the request built by importPipeline is identical whatever
the force argument is; the declared force flag has no effect on the call. -/
theorem claim_C10 (key pipName pipelineCode : String)
    (f1 f2 : Option Bool) :
    importPipeline key pipName pipelineCode f1 =
      importPipeline key pipName pipelineCode f2 := rfl

end PipelineSvc
